import Mathlib

/-!
Verification development for the bus-stop estimation module
`dalladalla/dallacrowd.py`.

The Python module is shallowly embedded here: machine floats are modelled
as exact rationals, numpy arrays as lists, and Python exceptions as an
explicit `Except` error channel. Each definition is translated from the
corresponding source function; the only exception is `gaussian_kde`,
whose source (`dalladalla/weightedkde.py`) is not part of the sources
provided and is therefore modelled from the specification text.
-/

set_option maxRecDepth 4000

namespace DallaCrowd

/-- Python exceptions that the embedded code can raise. The module itself
defines no custom exception class; these constructors name the builtin
exception classes that actually arise at runtime, plus `invalidInput` for
the invalid-input failures the specification assigns to the density fit. -/
inductive Err where
  | invalidInput
  | valueError
  | typeError
  | attributeError
  | indexError
deriving DecidableEq, Repr

/-- A 2-D numpy array of density values, row-major: entry `i j` is row `i`
(the y index), column `j` (the x index). -/
abbrev Grid := List (List ℚ)

/-- Total size of a grid, as `numpy.ndarray.size`. -/
def gridSize (g : Grid) : ℕ := (g.map List.length).sum

/-- First element of a grid with exactly one entry (used by the numpy
truthiness rule for size-one arrays). -/
def gridFirst (g : Grid) : ℚ := (g.headI).headI

/-- Embeds `numpy.linspace(a, b, n)`: `n` evenly spaced samples from `a`
to `b` inclusive; with `n = 1` numpy returns `[a]`, with `n = 0` an empty
array. -/
def linspace (a b : ℚ) (n : ℕ) : List ℚ :=
  if n = 0 then []
  else if n = 1 then [a]
  else (List.range n).map (fun i : ℕ => a + (i : ℚ) * (b - a) / ((n : ℚ) - 1))

/-- Index clipping as performed by `ndarray.take(.., mode=\x7bclip\x7d)`,
which `scipy.signal.argrelmax` uses by default: negative indices clip to
`0`, indices past the end clip to `n - 1`. -/
def clipIdx (n : ℕ) (i : ℤ) : ℕ :=
  if i < 0 then 0 else if (n : ℤ) ≤ i then n - 1 else i.toNat

/-- Cell access `g[i][j]` with numpy-irrelevant default `0` outside the
grid (all uses are guarded by index bounds). -/
def getCell (g : Grid) (i j : ℕ) : ℚ := (g.getD i []).getD j 0

/-- Embeds `scipy.signal.argrelmax(g, axis=1)` membership at cell
`(i, j)`: with the default comparator `np.greater`, `order=1` and
`mode=clip`, the cell value must strictly exceed the values at the
clipped column indices `j+1` and `j-1` of the same row. -/
def relmaxA1 (g : Grid) (i j : ℕ) : Bool :=
  decide (getCell g i (clipIdx (g.getD i []).length ((j : ℤ) + 1)) < getCell g i j) &&
  decide (getCell g i (clipIdx (g.getD i []).length ((j : ℤ) - 1)) < getCell g i j)

/-- Embeds `scipy.signal.argrelmax(g, axis=0)` membership at cell
`(i, j)`: the cell value must strictly exceed the values at the clipped
row indices `i+1` and `i-1` of the same column. -/
def relmaxA0 (g : Grid) (i j : ℕ) : Bool :=
  decide (getCell g (clipIdx g.length ((i : ℤ) + 1)) j < getCell g i j) &&
  decide (getCell g (clipIdx g.length ((i : ℤ) - 1)) j < getCell g i j)

/-- Embeds the maxima-intersection step of `estimate_stops`: the mask
`out_x + out_y == 2` selects exactly the cells marked by `argrelmax` on
both axes, and boolean-mask indexing of `xx`/`yy` flattens the mask in
row-major order. The result lists the selected `(i, j)` index pairs in
that order. -/
def candCells (g : Grid) : List (ℕ × ℕ) :=
  (List.range g.length).flatMap (fun i =>
    ((List.range (g.getD i []).length).filter
        (fun j => relmaxA0 g i j && relmaxA1 g i j)).map (fun j => (i, j)))

/-- A fitted density estimator: point-wise evaluation at a query
coordinate `(x, y)`. -/
abbrev Pdf := ℚ → ℚ → ℚ

/-- A smooth positive bump kernel standing in for the Gaussian kernel;
its exact shape is irrelevant to every claim (which treat the fitted
surface as opaque), only smooth positive decay with distance matters. -/
def kdeKernel (bw dx dy : ℚ) : ℚ := 1 / (1 + (dx ^ 2 + dy ^ 2) / bw ^ 2)

/-- The value Python passes as the `dataset` argument of
`gaussian_kde`: either a numeric `(2, N)` coordinate array (the
`coords` constructor, listing the `N` columns as `(x, y)` pairs), or a
geopandas series of point geometry objects (the `geoms` constructor),
which is what the unweighted branch of `estimate_stops` passes. -/
inductive KdeDataset where
  | coords (pts : List (ℚ × ℚ))
  | geoms (ps : List (ℚ × ℚ))

/-- Modelled from the spec: `dalladalla/weightedkde.py` (imported as
`kde` by `dallacrowd.py`) is not among the provided sources. Per the
specification, the fit takes a `(2, N)` numeric dataset, fails with an
invalid-input error if `N < 2`, if a supplied weight vector has length
different from `N`, or if the weights sum to zero; absent weights imply
uniform weight `1` per point; each point contributes kernel mass
proportional to its weight. A dataset of geometry objects is not a
`(2, N)` numeric array: numpy arithmetic on such an object array raises
`TypeError` during the covariance computation of the fit. -/
def gaussian_kde (dataset : KdeDataset) (weights : Option (List ℚ))
    (bw : ℚ) : Except Err Pdf :=
  match dataset with
  | KdeDataset.geoms _ => Except.error Err.typeError
  | KdeDataset.coords pts =>
    if pts.length < 2 then Except.error Err.invalidInput
    else
      match weights with
      | none =>
        Except.ok (fun qx qy =>
          (pts.map (fun p => kdeKernel bw (qx - p.1) (qy - p.2))).sum)
      | some w =>
        if w.length ≠ pts.length then Except.error Err.invalidInput
        else if w.sum = 0 then Except.error Err.invalidInput
        else
          Except.ok (fun qx qy =>
            ((pts.zip w).map
              (fun pw => pw.2 * kdeKernel bw (qx - pw.1.1) (qy - pw.1.2))).sum)

/-- Evaluation of a fitted pdf on the meshgrid: the source ravels
`xx, yy = np.meshgrid(x, y)` row-major, evaluates, and reshapes back, so
cell `(i, j)` of the surface holds the density at `(x[j], y[i])`. -/
def evalGrid (pdf : Pdf) (x y : List ℚ) : Grid :=
  y.map (fun yv => x.map (fun xv => pdf xv yv))

/-- Minimum of a numpy reduction over a nonempty list (the empty case is
guarded by the callers exactly where numpy would raise). -/
def minQ : List ℚ → ℚ
  | [] => 0
  | q :: qs => qs.foldl min q

/-- Maximum counterpart of `minQ`. -/
def maxQ : List ℚ → ℚ
  | [] => 0
  | q :: qs => qs.foldl max q

/-- The state of an `Estimator` instance. `p_coordinates` embeds the
private `(2, N)` float array `__p_coordinates` (stored as its `N`
columns), `points` the raw geometry series `_points`, the four `b`
fields the `__boundaries` array in its stored order
`(xmin, xmax, ymin, ymax)`, `stop_prob` the cached `_stop_prob` surface
(`none` embeds Python `None`), and `weights` the `_weights` vector. -/
structure Estimator where
  p_coordinates : List (ℚ × ℚ)
  points : List (ℚ × ℚ)
  b0 : ℚ
  b1 : ℚ
  b2 : ℚ
  b3 : ℚ
  stop_prob : Option Grid
  weights : Option (List ℚ)
deriving Repr, Inhabited, DecidableEq

/-- Embeds the `points` property setter. `None` input fails like
`None.geometry` (AttributeError); an empty series reaches
`min(axis=1)` over a zero-length axis, which numpy rejects
(ValueError). Otherwise coordinates are extracted in order, boundaries
recomputed via the index shuffle `flatten()[[0,2,1,3]]` as
`(xmin, xmax, ymin, ymax)`, and the cached surface reset to `None`.
The weight vector is untouched. -/
def set_points (e : Estimator) (value : Option (List (ℚ × ℚ))) :
    Except Err Estimator :=
  match value with
  | none => Except.error Err.attributeError
  | some v =>
    match v with
    | [] => Except.error Err.valueError
    | _ :: _ =>
      Except.ok { e with
        p_coordinates := v
        points := v
        b0 := minQ (v.map Prod.fst)
        b1 := maxQ (v.map Prod.fst)
        b2 := minQ (v.map Prod.snd)
        b3 := maxQ (v.map Prod.snd)
        stop_prob := none }

/-- Embeds the `weights` property setter: stores the vector and resets
the cached surface to `None`. -/
def set_weights (e : Estimator) (value : Option (List ℚ)) : Estimator :=
  { e with weights := value, stop_prob := none }

/-- A bare instance before `__init__` populates its attributes (only
`_stop_prob = None` has been assigned); the placeholder field values are
all overwritten or irrelevant by the time construction succeeds. -/
def bareEstimator : Estimator :=
  { p_coordinates := [], points := [], b0 := 0, b1 := 0, b2 := 0, b3 := 0,
    stop_prob := none, weights := none }

/-- Embeds `Estimator.__init__`: sets `_stop_prob = None`, then drives
the `points` setter and the `weights` setter in that order. -/
def estimator_init (input_points : Option (List (ℚ × ℚ)))
    (w : Option (List ℚ)) : Except Err Estimator :=
  match set_points bareEstimator input_points with
  | Except.error er => Except.error er
  | Except.ok e1 => Except.ok (set_weights e1 w)

/-- Embeds the Python truthiness test `not self._stop_prob`. `None` is
falsy, so the test is `True`. For a numpy array the test calls
`ndarray.__bool__`: defined only for size-one arrays (value equal to the
element being nonzero); for any other size it raises
`ValueError: the truth value of an array with more than one element is
ambiguous` (for the empty array, the numpy of the era returns `False`
with a deprecation warning, hence `not` gives `True`). -/
def truthyNot : Option Grid → Except Err Bool
  | none => Except.ok true
  | some g =>
    let n := gridSize g
    if n = 1 then Except.ok (decide (gridFirst g = 0))
    else if n = 0 then Except.ok true
    else Except.error Err.valueError

/-- Result of one `nearest_street` call: the Python function returns
either the `mapped_coordinate` pair from the response payload or, on any
exception, the scalar sentinel `0`. -/
inductive PyVal where
  | scalar (q : ℚ)
  | pair (a b : ℚ)

/-- Embeds `nearest_street`. The network round-trip is abstracted into
the `lookup` collaborator: `some m` is a successful response carrying
the mapped coordinate, `none` is any failure (network error, malformed
response, or missing field), in which case the `except` clause prints
and returns the scalar `0`. -/
def nearest_street (lookup : ℚ × ℚ → Option (ℚ × ℚ)) (c : ℚ × ℚ) : PyVal :=
  match lookup c with
  | some m => PyVal.pair m.1 m.2
  | none => PyVal.scalar 0

/-- Shape of the array produced by
`np.apply_along_axis(nearest_street, 1, stop_points.T)`: a matrix of
rows when the first call returns a pair (scalar results broadcast into
the length-2 row), or a flat vector when every call returns a scalar. -/
inductive SnapOut where
  | mat (rows : List (ℚ × ℚ))
  | vec (vals : List ℚ)

/-- Helper for the scalar-buffer case of `apply_along_axis`: once the
first result fixed a scalar output cell per row, a later pair result
cannot be broadcast into a scalar cell and numpy raises ValueError. -/
def scalarFill (lookup : ℚ × ℚ → Option (ℚ × ℚ)) :
    List (ℚ × ℚ) → Except Err (List ℚ)
  | [] => Except.ok []
  | p :: ps =>
    match nearest_street lookup p with
    | PyVal.scalar s => (scalarFill lookup ps).map (fun t => s :: t)
    | PyVal.pair _ _ => Except.error Err.valueError

/-- Helper for the pair-buffer case of `apply_along_axis`: rows keep
pair results, and a scalar result broadcasts across the length-2 row. -/
def pairFill (lookup : ℚ × ℚ → Option (ℚ × ℚ)) (ps : List (ℚ × ℚ)) :
    List (ℚ × ℚ) :=
  ps.map (fun p =>
    match nearest_street lookup p with
    | PyVal.pair a b => (a, b)
    | PyVal.scalar s => (s, s))

/-- Embeds `np.apply_along_axis(nearest_street, 1, stop_points.T)`: the
function is applied to the first row and its result shape determines the
output buffer; the remaining rows must then produce results assignable
into that shape. An empty iteration space makes numpy index the missing
first row and fail. -/
def snapAll (lookup : ℚ × ℚ → Option (ℚ × ℚ)) :
    List (ℚ × ℚ) → Except Err SnapOut
  | [] => Except.error Err.indexError
  | p :: ps =>
    match nearest_street lookup p with
    | PyVal.pair a b => Except.ok (SnapOut.mat ((a, b) :: pairFill lookup ps))
    | PyVal.scalar s => (scalarFill lookup ps).map (fun t => SnapOut.vec (s :: t))

/-- Embeds the tail of `estimate_stops`, from the cached or freshly
computed surface to the returned value: both-axis candidate cells, their
meshgrid coordinates (`stop_points`), the optional road-snapping pass,
and the final `zip(point_list[1], point_list[0])` over the transposed
array, which raises TypeError or IndexError when the snapped array has
collapsed to a flat vector of sentinel scalars. -/
def extractOutput (lookup : ℚ × ℚ → Option (ℚ × ℚ)) (snap_to_street : Bool)
    (x y : List ℚ) (grid : Grid) : Except Err (List (ℚ × ℚ)) :=
  let cells := candCells grid
  let stop_points : List (ℚ × ℚ) :=
    cells.map (fun c => (x.getD c.2 0, y.getD c.1 0))
  if snap_to_street then
    match snapAll lookup stop_points with
    | Except.error er => Except.error er
    | Except.ok (SnapOut.mat rows) =>
      Except.ok ((rows.map Prod.snd).zip (rows.map Prod.fst))
    | Except.ok (SnapOut.vec vals) =>
      match vals with
      | [] => Except.error Err.indexError
      | [_] => Except.error Err.indexError
      | _ :: _ :: _ => Except.error Err.typeError
  else
    Except.ok ((stop_points.map Prod.snd).zip (stop_points.map Prod.fst))

/-- Embeds `Estimator.estimate_stops`. The network collaborator behind
`nearest_street` is passed as the `lookup` parameter. The first
component is the returned value or the exception raised; the second is
the estimator state afterwards (every raise in the source happens before
or instead of the sole state mutation, the `_stop_prob` assignment). -/
def estimate_stops (e : Estimator) (lookup : ℚ × ℚ → Option (ℚ × ℚ))
    (weighted snap_to_street : Bool) (resolution : ℕ) (kernel_width : ℚ) :
    Except Err (List (ℚ × ℚ)) × Estimator :=
  let x := linspace e.b0 e.b1 resolution
  let y := linspace e.b2 e.b3 resolution
  match truthyNot e.stop_prob with
  | Except.error er => (Except.error er, e)
  | Except.ok needFit =>
    let fitted : Except Err (Grid × Estimator) :=
      if needFit then
        match (if weighted then
                 gaussian_kde (KdeDataset.coords e.p_coordinates) e.weights
                   kernel_width
               else
                 gaussian_kde (KdeDataset.geoms e.points) none
                   kernel_width) with
        | Except.error er => Except.error er
        | Except.ok pdf =>
          let grid := evalGrid pdf x y
          Except.ok (grid, { e with stop_prob := some grid })
      else Except.ok (e.stop_prob.getD [], e)
    match fitted with
    | Except.error er => (Except.error er, e)
    | Except.ok (grid, e1) =>
      (extractOutput lookup snap_to_street x y grid, e1)

/-- Embeds Python `min(..)` over a list: raises ValueError on an empty
sequence, otherwise folds the binary minimum. -/
def pyMin : List ℚ → Except Err ℚ
  | [] => Except.error Err.valueError
  | q :: qs => Except.ok (qs.foldl min q)

/-- Recursive body of `route_dist`: one minimum per point, in order. -/
def route_dist_list (routes : List ((ℚ × ℚ) → ℚ)) :
    List (ℚ × ℚ) → Except Err (List ℚ)
  | [] => Except.ok []
  | p :: ps =>
    match pyMin (routes.map (fun r => r p)) with
    | Except.error er => Except.error er
    | Except.ok m => (route_dist_list routes ps).map (fun t => m :: t)

/-- Embeds `Estimator.route_dist`. Each route geometry is abstracted to
the distance-to-point operation it exposes (the external geometry
collaborator), so `r p` embeds `point.distance(r)`. -/
def route_dist (e : Estimator) (routes : List ((ℚ × ℚ) → ℚ)) :
    Except Err (List ℚ) :=
  route_dist_list routes e.points

/-! Helper lemmas about the embedded numeric primitives. -/

theorem foldl_min_le_init (l : List ℚ) (a : ℚ) : l.foldl min a ≤ a := by
  induction l generalizing a with
  | nil => exact le_refl a
  | cons q qs ih =>
    exact le_trans (ih (min a q)) (min_le_left a q)

theorem foldl_min_le_mem {l : List ℚ} {q : ℚ} (a : ℚ) (h : q ∈ l) :
    l.foldl min a ≤ q := by
  induction l generalizing a with
  | nil => cases h
  | cons p ps ih =>
    rcases List.mem_cons.mp h with h1 | h2
    · subst h1
      exact le_trans (foldl_min_le_init ps (min a q)) (min_le_right a q)
    · exact ih (min a p) h2

theorem foldl_min_mem {l : List ℚ} (a : ℚ) :
    l.foldl min a = a ∨ l.foldl min a ∈ l := by
  induction l generalizing a with
  | nil => exact Or.inl rfl
  | cons p ps ih =>
    rcases ih (min a p) with h | h
    · rcases min_cases a p with ⟨he, _⟩ | ⟨he, _⟩
      · exact Or.inl (by rw [List.foldl_cons, h, he])
      · exact Or.inr (by rw [List.foldl_cons, h, he]; exact List.mem_cons_self p ps)
    · exact Or.inr (List.mem_cons_of_mem p h)

theorem init_le_foldl_max (l : List ℚ) (a : ℚ) : a ≤ l.foldl max a := by
  induction l generalizing a with
  | nil => exact le_refl a
  | cons q qs ih =>
    exact le_trans (le_max_left a q) (ih (max a q))

theorem mem_le_foldl_max {l : List ℚ} {q : ℚ} (a : ℚ) (h : q ∈ l) :
    q ≤ l.foldl max a := by
  induction l generalizing a with
  | nil => cases h
  | cons p ps ih =>
    rcases List.mem_cons.mp h with h1 | h2
    · subst h1
      exact le_trans (le_max_right a q) (init_le_foldl_max ps (max a q))
    · exact ih (max a p) h2

theorem minQ_le {l : List ℚ} {q : ℚ} (h : q ∈ l) : minQ l ≤ q := by
  cases l with
  | nil => cases h
  | cons p ps =>
    rcases List.mem_cons.mp h with h1 | h2
    · subst h1; exact foldl_min_le_init ps q
    · exact foldl_min_le_mem p h2

theorem le_maxQ {l : List ℚ} {q : ℚ} (h : q ∈ l) : q ≤ maxQ l := by
  cases l with
  | nil => cases h
  | cons p ps =>
    rcases List.mem_cons.mp h with h1 | h2
    · subst h1; exact init_le_foldl_max ps q
    · exact mem_le_foldl_max p h2

theorem minQ_mem {l : List ℚ} (h : l ≠ []) : minQ l ∈ l := by
  cases l with
  | nil => exact absurd rfl h
  | cons p ps =>
    rcases foldl_min_mem (l := ps) p with h1 | h1
    · exact List.mem_cons.mpr (Or.inl h1)
    · exact List.mem_cons_of_mem p h1

theorem pyMin_of_ne_nil {l : List ℚ} (h : l ≠ []) :
    pyMin l = Except.ok (minQ l) := by
  cases l with
  | nil => exact absurd rfl h
  | cons p ps => rfl

theorem linspace_mem_bounds {a b : ℚ} {n : ℕ} (hab : a ≤ b) {v : ℚ}
    (hv : v ∈ linspace a b n) : a ≤ v ∧ v ≤ b := by
  unfold linspace at hv
  by_cases h0 : n = 0
  · rw [if_pos h0] at hv
    cases hv
  · by_cases h1 : n = 1
    · rw [if_neg h0, if_pos h1, List.mem_singleton] at hv
      subst hv
      exact ⟨le_refl _, hab⟩
    · rw [if_neg h0, if_neg h1] at hv
      rcases List.mem_map.mp hv with ⟨i, hi, hvi⟩
      rw [List.mem_range] at hi
      subst hvi
      have hn2 : 2 ≤ n := by omega
      have hpos : (0 : ℚ) < (n : ℚ) - 1 := by
        have h2 : (2 : ℚ) ≤ (n : ℚ) := by exact_mod_cast hn2
        linarith
      have hi1 : (i : ℚ) ≤ (n : ℚ) - 1 := by
        have hc : (i : ℚ) + 1 ≤ (n : ℚ) := by exact_mod_cast hi
        linarith
      have hi0 : (0 : ℚ) ≤ (i : ℚ) := Nat.cast_nonneg i
      have hnum0 : 0 ≤ (i : ℚ) * (b - a) := mul_nonneg hi0 (by linarith)
      constructor
      · have hd : 0 ≤ (i : ℚ) * (b - a) / ((n : ℚ) - 1) :=
          div_nonneg hnum0 (le_of_lt hpos)
        linarith
      · have hle : (i : ℚ) * (b - a) / ((n : ℚ) - 1) ≤ b - a := by
          rw [div_le_iff₀ hpos]
          nlinarith
        linarith

theorem minQ_le_maxQ {l : List ℚ} (h : l ≠ []) : minQ l ≤ maxQ l :=
  le_trans (minQ_le (l.head_mem h)) (le_maxQ (l.head_mem h))

theorem linspace_length (a b : ℚ) (n : ℕ) : (linspace a b n).length = n := by
  unfold linspace
  by_cases h0 : n = 0
  · simp [h0]
  · by_cases h1 : n = 1
    · simp [h0, h1]
    · simp [h0, h1]

/-! Helper lemmas about the maxima-extraction stage. -/

theorem clipIdx_add_one {n j : ℕ} (hj : j < n) :
    clipIdx n ((j : ℤ) + 1) = if j + 1 < n then j + 1 else j := by
  unfold clipIdx
  by_cases h : j + 1 < n
  · rw [if_pos h, if_neg (by omega), if_neg (by omega)]
    omega
  · rw [if_neg h, if_neg (by omega), if_pos (by omega)]
    omega

theorem clipIdx_sub_one {n j : ℕ} (hj : j < n) :
    clipIdx n ((j : ℤ) - 1) = if j = 0 then 0 else j - 1 := by
  unfold clipIdx
  by_cases h : j = 0
  · rw [if_pos h, if_pos (by subst h; omega)]
  · rw [if_neg h, if_neg (by omega), if_neg (by omega)]
    omega

theorem mem_candCells {g : Grid} {i j : ℕ} :
    (i, j) ∈ candCells g ↔
      i < g.length ∧ j < (g.getD i []).length ∧
      relmaxA0 g i j = true ∧ relmaxA1 g i j = true := by
  unfold candCells
  constructor
  · intro h
    rcases List.mem_flatMap.mp h with ⟨a, ha, hmem⟩
    rcases List.mem_map.mp hmem with ⟨b, hb, heq⟩
    rcases List.mem_filter.mp hb with ⟨hbr, hpred⟩
    cases heq
    rw [List.mem_range] at ha hbr
    rw [Bool.and_eq_true] at hpred
    exact ⟨ha, hbr, hpred.1, hpred.2⟩
  · rintro ⟨hi, hj, h0, h1⟩
    exact List.mem_flatMap.mpr
      ⟨i, List.mem_range.mpr hi,
       List.mem_map.mpr
         ⟨j, List.mem_filter.mpr
               ⟨List.mem_range.mpr hj, by rw [h0, h1]; rfl⟩, rfl⟩⟩

theorem relmaxA1_iff {g : Grid} {i j : ℕ} (hj : j < (g.getD i []).length) :
    relmaxA1 g i j = true ↔
      0 < j ∧ j + 1 < (g.getD i []).length ∧
      getCell g i (j - 1) < getCell g i j ∧
      getCell g i (j + 1) < getCell g i j := by
  unfold relmaxA1
  rw [Bool.and_eq_true, decide_eq_true_eq, decide_eq_true_eq,
      clipIdx_add_one hj, clipIdx_sub_one hj]
  by_cases hj0 : j = 0
  · subst hj0
    simp [lt_irrefl]
  · by_cases hj1 : j + 1 < (g.getD i []).length
    · rw [if_pos hj1, if_neg hj0]
      constructor
      · rintro ⟨h1, h2⟩
        exact ⟨Nat.pos_of_ne_zero hj0, hj1, h2, h1⟩
      · rintro ⟨_, _, h3, h4⟩
        exact ⟨h4, h3⟩
    · rw [if_neg hj1, if_neg hj0]
      constructor
      · rintro ⟨h1, _⟩
        exact absurd h1 (lt_irrefl _)
      · rintro ⟨_, h2, _⟩
        exact absurd h2 hj1

theorem relmaxA0_iff {g : Grid} {i j : ℕ} (hi : i < g.length) :
    relmaxA0 g i j = true ↔
      0 < i ∧ i + 1 < g.length ∧
      getCell g (i - 1) j < getCell g i j ∧
      getCell g (i + 1) j < getCell g i j := by
  unfold relmaxA0
  rw [Bool.and_eq_true, decide_eq_true_eq, decide_eq_true_eq,
      clipIdx_add_one hi, clipIdx_sub_one hi]
  by_cases hi0 : i = 0
  · subst hi0
    simp [lt_irrefl]
  · by_cases hi1 : i + 1 < g.length
    · rw [if_pos hi1, if_neg hi0]
      constructor
      · rintro ⟨h1, h2⟩
        exact ⟨Nat.pos_of_ne_zero hi0, hi1, h2, h1⟩
      · rintro ⟨_, _, h3, h4⟩
        exact ⟨h4, h3⟩
    · rw [if_neg hi1, if_neg hi0]
      constructor
      · rintro ⟨h1, _⟩
        exact absurd h1 (lt_irrefl _)
      · rintro ⟨_, h2, _⟩
        exact absurd h2 hi1

/-! Helper lemmas about the orchestration paths of `estimate_stops`. -/

theorem estimate_stops_fit_shape (e : Estimator)
    (lookup : ℚ × ℚ → Option (ℚ × ℚ)) (weighted snap : Bool) (res : ℕ)
    (kw : ℚ) (pdf : Pdf) (hs : e.stop_prob = none)
    (hk : (if weighted then
             gaussian_kde (KdeDataset.coords e.p_coordinates) e.weights kw
           else gaussian_kde (KdeDataset.geoms e.points) none kw) =
          Except.ok pdf) :
    estimate_stops e lookup weighted snap res kw =
      (extractOutput lookup snap (linspace e.b0 e.b1 res)
         (linspace e.b2 e.b3 res)
         (evalGrid pdf (linspace e.b0 e.b1 res) (linspace e.b2 e.b3 res)),
       { e with
           stop_prob :=
             some (evalGrid pdf (linspace e.b0 e.b1 res) (linspace e.b2 e.b3 res)) }) := by
  unfold estimate_stops
  rw [hs]
  simp only [truthyNot, if_true]
  rw [hk]

theorem extractOutput_no_snap (lookup : ℚ × ℚ → Option (ℚ × ℚ))
    (x y : List ℚ) (g : Grid) :
    extractOutput lookup false x y g =
      Except.ok ((candCells g).map
        (fun c => (y.getD c.1 0, x.getD c.2 0))) := by
  unfold extractOutput
  simp only [Bool.false_eq_true, if_false, List.map_map, List.zip_map']
  rfl

theorem estimate_stops_too_few (e : Estimator)
    (lookup : ℚ × ℚ → Option (ℚ × ℚ)) (snap : Bool) (res : ℕ) (kw : ℚ)
    (hs : e.stop_prob = none) (hlen : e.p_coordinates.length < 2) :
    (estimate_stops e lookup true snap res kw).fst =
      Except.error Err.invalidInput := by
  unfold estimate_stops
  rw [hs]
  simp only [truthyNot, if_true]
  have hk : gaussian_kde (KdeDataset.coords e.p_coordinates) e.weights kw =
      Except.error Err.invalidInput := by
    simp [gaussian_kde, hlen]
  rw [hk]

/-! Helper lemmas about `route_dist`. -/

theorem route_dist_list_ok (routes : List ((ℚ × ℚ) → ℚ)) (hne : routes ≠ [])
    (ps : List (ℚ × ℚ)) :
    route_dist_list routes ps =
      Except.ok (ps.map (fun p => minQ (routes.map (fun r => r p)))) := by
  induction ps with
  | nil => rfl
  | cons p ps ih =>
    unfold route_dist_list
    have hmapne : routes.map (fun r => r p) ≠ [] := by
      intro hmap
      exact hne (List.map_eq_nil_iff.mp hmap)
    rw [pyMin_of_ne_nil hmapne, ih]
    rfl

/-! Helper lemmas about construction and the setters. -/

theorem set_points_ok_spec {e : Estimator} {v : List (ℚ × ℚ)} {e2 : Estimator}
    (h : set_points e (some v) = Except.ok e2) :
    e2.p_coordinates = v ∧ e2.points = v ∧
    e2.b0 = minQ (v.map Prod.fst) ∧ e2.b1 = maxQ (v.map Prod.fst) ∧
    e2.b2 = minQ (v.map Prod.snd) ∧ e2.b3 = maxQ (v.map Prod.snd) ∧
    e2.stop_prob = none ∧ e2.weights = e.weights := by
  cases v with
  | nil => exact absurd h (by simp [set_points])
  | cons p ps =>
    simp only [set_points] at h
    injection h with h2
    subst h2
    exact ⟨rfl, rfl, rfl, rfl, rfl, rfl, rfl, rfl⟩

theorem estimator_init_ok_spec {pts : List (ℚ × ℚ)} {w : Option (List ℚ)}
    {e : Estimator} (h : estimator_init (some pts) w = Except.ok e) :
    e.p_coordinates = pts ∧ e.points = pts ∧
    e.b0 = minQ (pts.map Prod.fst) ∧ e.b1 = maxQ (pts.map Prod.fst) ∧
    e.b2 = minQ (pts.map Prod.snd) ∧ e.b3 = maxQ (pts.map Prod.snd) ∧
    e.stop_prob = none ∧ e.weights = w := by
  unfold estimator_init at h
  rcases hsp : set_points bareEstimator (some pts) with er | e1
  · rw [hsp] at h
    cases h
  · rw [hsp] at h
    injection h with h2
    subst h2
    obtain ⟨hc, hp, hb0, hb1, hb2, hb3, _, _⟩ := set_points_ok_spec hsp
    exact ⟨hc, hp, hb0, hb1, hb2, hb3, rfl, rfl⟩

theorem evalGrid_length (pdf : Pdf) (x y : List ℚ) :
    (evalGrid pdf x y).length = y.length := by
  unfold evalGrid
  rw [List.length_map]

/-- Row extraction from an evaluated surface: for a valid row index the
row is the x-line evaluated at that y-value. -/
theorem evalGrid_row (pdf : Pdf) (x y : List ℚ) {i : ℕ} (hi : i < y.length) :
    (evalGrid pdf x y).getD i [] = x.map (fun xv => pdf xv (y.getD i 0)) := by
  unfold evalGrid
  rw [List.getD_eq_getElem _ _ (by simpa using hi), List.getElem_map,
      List.getD_eq_getElem _ _ hi]

/-! Concrete fixtures used by the claim theorems and witnesses. -/

/-- Four diagonal sample points, two interior density bumps at `(2, 2)`
and `(4, 4)` once evaluated on a 7 by 7 grid over their bounding box. -/
def pts4 : List (ℚ × ℚ) := [(0, 0), (2, 2), (4, 4), (6, 6)]

/-- The estimator produced by constructing on `pts4` with unit weights. -/
def E4 : Estimator :=
  { p_coordinates := pts4, points := pts4, b0 := 0, b1 := 6, b2 := 0, b3 := 6,
    stop_prob := none, weights := some [1, 1, 1, 1] }

/-- The estimator produced by resetting the points of `E4` to the single
point `(5, 5)` through the points setter. -/
def E1pt : Estimator :=
  { p_coordinates := [(5, 5)], points := [(5, 5)], b0 := 5, b1 := 5, b2 := 5,
    b3 := 5, stop_prob := none, weights := some [1, 1, 1, 1] }

/-- Road-snapping collaborator that always fails. -/
def lookupNone : ℚ × ℚ → Option (ℚ × ℚ) := fun _ => none

/-- Road-snapping collaborator that fails exactly on the first candidate
coordinate `(2, 2)` of the `E4` run and echoes any other coordinate. -/
def lookupFailFirst : ℚ × ℚ → Option (ℚ × ℚ) :=
  fun c => if c = (2, 2) then none else some c

/-- Road-snapping collaborator that fails exactly on the second
candidate coordinate `(4, 4)` of the `E4` run. -/
def lookupFailSecond : ℚ × ℚ → Option (ℚ × ℚ) :=
  fun c => if c = (4, 4) then none else some c

/-- The fitted surrogate density for `pts4` with unit weights and kernel
width `1/10`, exactly as `gaussian_kde` returns it. -/
def pdf4 : Pdf := fun qx qy =>
  ((pts4.zip [1, 1, 1, 1]).map
    (fun pw => pw.2 * kdeKernel (1 / 10) (qx - pw.1.1) (qy - pw.1.2))).sum

/-- A 3 by 3 grid with a single strict interior peak. -/
def g3 : Grid := [[0, 0, 0], [0, 5, 0], [0, 0, 0]]

/-- A 3 by 3 grid whose middle row has a two-cell plateau of equal
values. -/
def gPlateau : Grid := [[0, 0, 0], [0, 2, 2], [0, 0, 0]]

/-- A single route geometry, exposing its distance-to-point operation. -/
def route71 : List ((ℚ × ℚ) → ℚ) := [fun p => p.1 + p.2]

/-- The 7 by 7 density surface of the `E4` run, written as literal
rationals in lowest terms. -/
def grid4 : Grid :=
  [[Rat.mk' 6164917868 6154457067,
    Rat.mk' 9620947604 772100469201,
    Rat.mk' 23702404 4173287601,
    Rat.mk' 644456324 164572227981,
    Rat.mk' 14097604 5130886401,
    Rat.mk' 41512147604 20483982069201,
    Rat.mk' 11204 7205601],
   [Rat.mk' 9620947604 772100469201,
    Rat.mk' 6460268 603455667,
    Rat.mk' 1161752668 89992208667,
    Rat.mk' 4972804 684284601,
    Rat.mk' 999517556 247498202889,
    Rat.mk' 7204 2603601,
    Rat.mk' 41512147604 20483982069201],
   [Rat.mk' 23702404 4173287601,
    Rat.mk' 1161752668 89992208667,
    Rat.mk' 857068 854667,
    Rat.mk' 2151173204 164645584401,
    Rat.mk' 4804 802401,
    Rat.mk' 999517556 247498202889,
    Rat.mk' 14097604 5130886401],
   [Rat.mk' 644456324 164572227981,
    Rat.mk' 4972804 684284601,
    Rat.mk' 2151173204 164645584401,
    Rat.mk' 4004 362001,
    Rat.mk' 2151173204 164645584401,
    Rat.mk' 4972804 684284601,
    Rat.mk' 644456324 164572227981],
   [Rat.mk' 14097604 5130886401,
    Rat.mk' 999517556 247498202889,
    Rat.mk' 4804 802401,
    Rat.mk' 2151173204 164645584401,
    Rat.mk' 857068 854667,
    Rat.mk' 1161752668 89992208667,
    Rat.mk' 23702404 4173287601],
   [Rat.mk' 41512147604 20483982069201,
    Rat.mk' 7204 2603601,
    Rat.mk' 999517556 247498202889,
    Rat.mk' 4972804 684284601,
    Rat.mk' 1161752668 89992208667,
    Rat.mk' 6460268 603455667,
    Rat.mk' 9620947604 772100469201],
   [Rat.mk' 11204 7205601,
    Rat.mk' 41512147604 20483982069201,
    Rat.mk' 14097604 5130886401,
    Rat.mk' 644456324 164572227981,
    Rat.mk' 23702404 4173287601,
    Rat.mk' 9620947604 772100469201,
    Rat.mk' 6164917868 6154457067]]

/-- The seven grid coordinates `linspace(0, 6, 7)` of the `E4` run. -/
def qlin7 : List ℚ := [0, 1, 2, 3, 4, 5, 6]

theorem qlin7_eq : linspace 0 6 7 = qlin7 := by
  unfold linspace qlin7
  rw [if_neg (by omega), if_neg (by omega)]
  rw [show List.range 7 = [0, 1, 2, 3, 4, 5, 6] from rfl]
  simp only [List.map_cons, List.map_nil]
  norm_num

theorem grid4_eq : evalGrid pdf4 qlin7 qlin7 = grid4 := by
  unfold evalGrid pdf4 kdeKernel pts4 qlin7 grid4
  simp only [List.map_cons, List.map_nil, List.zip_cons_cons, List.zip_nil_right,
    List.sum_cons, List.sum_nil, Rat.mk'_eq_divInt, Rat.divInt_eq_div]
  norm_num

theorem kde4_ok :
    gaussian_kde (KdeDataset.coords E4.p_coordinates) E4.weights (1 / 10) =
      Except.ok pdf4 := by
  show gaussian_kde (KdeDataset.coords pts4) (some [1, 1, 1, 1]) (1 / 10) =
    Except.ok pdf4
  simp only [gaussian_kde]
  rw [if_neg (by decide), if_neg (by decide),
      if_neg (by norm_num [List.sum_cons, List.sum_nil])]
  rfl

/-- The complete weighted `E4` run at resolution 7 and kernel width
`1/10`, for an arbitrary snapping mode and collaborator: the fitted
surface is `grid4` and the output is the extraction stage on it. -/
theorem run4 (lookup : ℚ × ℚ → Option (ℚ × ℚ)) (snap : Bool) :
    estimate_stops E4 lookup true snap 7 (1 / 10) =
      (extractOutput lookup snap qlin7 qlin7 grid4,
       { E4 with stop_prob := some grid4 }) := by
  have hshape := estimate_stops_fit_shape E4 lookup true snap 7 (1 / 10) pdf4
    rfl (by simp only [if_true]; exact kde4_ok)
  rw [hshape, show linspace E4.b0 E4.b1 7 = qlin7 from qlin7_eq,
      show linspace E4.b2 E4.b3 7 = qlin7 from qlin7_eq, grid4_eq]

theorem run4_fst_no_snap :
    (estimate_stops E4 lookupNone true false 7 (1 / 10)).fst =
      Except.ok [(2, 2), (4, 4)] := by
  rw [run4 lookupNone false]
  rfl

/-! The claim theorems. -/

/-- Claim C1 (code bug): the spec requires a second identical
`estimate_stops` call to reuse the cached DensitySurface and return
identical output. In the code the cache test `not self._stop_prob`
applies Python truthiness to the cached numpy array, which raises
ValueError for any array with more than one element, so the second call
raises instead of returning. Concrete run: the first call on `E4`
succeeds with two candidates; the second call on the resulting state
raises ValueError. -/
theorem claim_C1 :
    (estimate_stops E4 lookupNone true false 7 (1 / 10)).fst =
      Except.ok [(2, 2), (4, 4)] ∧
    (estimate_stops (estimate_stops E4 lookupNone true false 7 (1 / 10)).snd
      lookupNone true false 7 (1 / 10)).fst = Except.error Err.valueError := by
  constructor
  · exact run4_fst_no_snap
  · rw [run4 lookupNone false]
    rfl

/-- Claim C2 (confirmed): a grid cell is a candidate of the
maxima-intersection stage exactly when it is a strict local maximum
along axis 0 and along axis 1 (strictly greater than both immediate
neighbours on each axis, which forces an interior position); grid-edge
cells are never candidates, and a cell sharing its value with an
adjacent cell on either axis is never a candidate. -/
theorem claim_C2 (g : Grid) (i j : ℕ) (hi : i < g.length)
    (hj : j < (g.getD i []).length) :
    ((i, j) ∈ candCells g ↔
      (0 < i ∧ i + 1 < g.length ∧ 0 < j ∧ j + 1 < (g.getD i []).length ∧
       getCell g (i - 1) j < getCell g i j ∧
       getCell g (i + 1) j < getCell g i j ∧
       getCell g i (j - 1) < getCell g i j ∧
       getCell g i (j + 1) < getCell g i j)) ∧
    ((i = 0 ∨ i + 1 = g.length ∨ j = 0 ∨ j + 1 = (g.getD i []).length) →
      (i, j) ∉ candCells g) ∧
    ((getCell g i j = getCell g i (j + 1) ∨
      getCell g i j = getCell g i (j - 1) ∨
      getCell g i j = getCell g (i + 1) j ∨
      getCell g i j = getCell g (i - 1) j) → (i, j) ∉ candCells g) := by
  have hmain : (i, j) ∈ candCells g ↔
      (0 < i ∧ i + 1 < g.length ∧ 0 < j ∧ j + 1 < (g.getD i []).length ∧
       getCell g (i - 1) j < getCell g i j ∧
       getCell g (i + 1) j < getCell g i j ∧
       getCell g i (j - 1) < getCell g i j ∧
       getCell g i (j + 1) < getCell g i j) := by
    rw [mem_candCells, relmaxA0_iff hi, relmaxA1_iff hj]
    constructor
    · rintro ⟨_, _, ⟨h1, h2, h3, h4⟩, h5, h6, h7, h8⟩
      exact ⟨h1, h2, h5, h6, h3, h4, h7, h8⟩
    · rintro ⟨h1, h2, h5, h6, h3, h4, h7, h8⟩
      exact ⟨hi, hj, ⟨h1, h2, h3, h4⟩, h5, h6, h7, h8⟩
  refine ⟨hmain, ?_, ?_⟩
  · intro hedge hmem
    obtain ⟨e1, e2, e3, e4, _⟩ := hmain.mp hmem
    rcases hedge with h | h | h | h <;> omega
  · intro hpl hmem
    obtain ⟨_, _, _, _, c1, c2, c3, c4⟩ := hmain.mp hmem
    rcases hpl with h | h | h | h <;> linarith

/-- Witness for claim C2: the centre of a single-peak 3 by 3 grid is a
candidate, a plateau cell is not, and an edge cell is not. -/
theorem claim_C2_witness :
    (1, 1) ∈ candCells g3 ∧ ((1, 1) : ℕ × ℕ) ∉ candCells gPlateau ∧
    ((0, 1) : ℕ × ℕ) ∉ candCells g3 :=
  ⟨(claim_C2 g3 1 1 (by decide) (by decide)).1.mpr (by decide),
   (claim_C2 gPlateau 1 1 (by decide) (by decide)).2.2 (Or.inl (by decide)),
   (claim_C2 g3 0 1 (by decide) (by decide)).2.1 (Or.inl rfl)⟩

/-- Claim C3 (code bug): the spec requires `weighted=False` to behave
like unit weights over the PointSet coordinates; the code instead hands
the raw geometry series `self.points` (not `self.__p_coordinates`) to
the density fit, whose numpy arithmetic fails on geometry objects with
TypeError, while the weighted call with unit weights over the same
points succeeds. -/
theorem claim_C3 :
    (estimate_stops E4 lookupNone false false 7 (1 / 10)).fst =
      Except.error Err.typeError ∧
    (estimate_stops E4 lookupNone true false 7 (1 / 10)).fst =
      Except.ok [(2, 2), (4, 4)] :=
  ⟨rfl, run4_fst_no_snap⟩

/-- Counterexample for claim C4: the points setter accepts a single
point without raising anything, contradicting the claimed
InvalidInputError for fewer than two points. -/
theorem claim_C4_cex : set_points E4 (some [(5, 5)]) = Except.ok E1pt := rfl

/-- Claim C4 as amended: the points setter performs no minimum-count
validation (a single point is accepted); only the density fit rejects
fewer than two points or a weight vector whose length differs from the
point count, and `estimate_stops` surfaces that error to the caller. -/
theorem claim_C4 (pts : List (ℚ × ℚ)) (w : List ℚ) (wopt : Option (List ℚ))
    (bw kw : ℚ) (e : Estimator) (p : ℚ × ℚ)
    (lookup : ℚ × ℚ → Option (ℚ × ℚ)) (res : ℕ) :
    (pts.length < 2 → gaussian_kde (KdeDataset.coords pts) wopt bw =
      Except.error Err.invalidInput) ∧
    (w.length ≠ pts.length → gaussian_kde (KdeDataset.coords pts) (some w) bw =
      Except.error Err.invalidInput) ∧
    (∃ e2, set_points e (some [p]) = Except.ok e2) ∧
    (e.stop_prob = none → e.p_coordinates.length < 2 →
      (estimate_stops e lookup true false res kw).fst =
        Except.error Err.invalidInput) := by
  refine ⟨?_, ?_, ⟨_, rfl⟩, ?_⟩
  · intro h
    simp [gaussian_kde, h]
  · intro h
    by_cases h2 : pts.length < 2
    · simp [gaussian_kde, h2]
    · simp [gaussian_kde, h2, h]
  · intro hs hlen
    exact estimate_stops_too_few e lookup false res kw hs hlen

/-- Witness for claim C4: the fit rejects a one-point dataset and a
mismatched weight vector, the setter accepts a single point, and the
call on the one-point estimator surfaces the invalid-input error. -/
theorem claim_C4_witness :
    gaussian_kde (KdeDataset.coords [((0 : ℚ), (0 : ℚ))]) none 1 =
      Except.error Err.invalidInput ∧
    gaussian_kde (KdeDataset.coords pts4) (some [1, 2]) 1 =
      Except.error Err.invalidInput ∧
    (∃ e2, set_points E4 (some [(5, 5)]) = Except.ok e2) ∧
    (estimate_stops E1pt lookupNone true false 7 (1 / 10)).fst =
      Except.error Err.invalidInput :=
  ⟨(claim_C4 [((0 : ℚ), (0 : ℚ))] [] none 1 0 E4 (0, 0) lookupNone 0).1
     (by decide),
   (claim_C4 pts4 [1, 2] none 1 0 E4 (0, 0) lookupNone 0).2.1 (by decide),
   (claim_C4 pts4 [] none 1 0 E4 (5, 5) lookupNone 0).2.2.1,
   (claim_C4 pts4 [] none 1 (1 / 10) E1pt (0, 0) lookupNone 7).2.2.2 rfl
     (by decide)⟩

/-- Claim C5 (confirmed): with a fresh surface, a successful weighted
fit and no road snapping, the returned sequence is exactly the
candidate cells mapped to (y, x) pairs: the y-line value at the row
index first, the x-line value at the column index second, the swap of
the internal (x, y) meshgrid order. -/
theorem claim_C5 (e : Estimator) (lookup : ℚ × ℚ → Option (ℚ × ℚ))
    (res : ℕ) (kw : ℚ) (pdf : Pdf) (hs : e.stop_prob = none)
    (hk : gaussian_kde (KdeDataset.coords e.p_coordinates) e.weights kw =
      Except.ok pdf) :
    (estimate_stops e lookup true false res kw).fst =
      Except.ok
        ((candCells (evalGrid pdf (linspace e.b0 e.b1 res)
            (linspace e.b2 e.b3 res))).map
          (fun c => ((linspace e.b2 e.b3 res).getD c.1 0,
                     (linspace e.b0 e.b1 res).getD c.2 0))) := by
  rw [estimate_stops_fit_shape e lookup true false res kw pdf hs
      (by simp only [if_true]; exact hk)]
  exact extractOutput_no_snap lookup _ _ _

/-- Witness for claim C5: the concrete `E4` run. -/
theorem claim_C5_witness :
    (estimate_stops E4 lookupNone true false 7 (1 / 10)).fst =
      Except.ok
        ((candCells (evalGrid pdf4 (linspace E4.b0 E4.b1 7)
            (linspace E4.b2 E4.b3 7))).map
          (fun c => ((linspace E4.b2 E4.b3 7).getD c.1 0,
                     (linspace E4.b0 E4.b1 7).getD c.2 0))) :=
  claim_C5 E4 lookupNone 7 (1 / 10) pdf4 rfl kde4_ok

/-- Claim C6 (confirmed): every successful points assignment and every
weights assignment resets the cached surface to the unset state, and a
points assignment recomputes the boundaries as the per-axis minima and
maxima in the order (xmin, xmax, ymin, ymax). -/
theorem claim_C6 :
    (∀ e v e2, set_points e v = Except.ok e2 → e2.stop_prob = none) ∧
    (∀ e v e2, set_points e (some v) = Except.ok e2 →
      e2.b0 = minQ (v.map Prod.fst) ∧ e2.b1 = maxQ (v.map Prod.fst) ∧
      e2.b2 = minQ (v.map Prod.snd) ∧ e2.b3 = maxQ (v.map Prod.snd)) ∧
    (∀ e w, (set_weights e w).stop_prob = none) := by
  refine ⟨?_, ?_, ?_⟩
  · intro e v e2 h
    cases v with
    | none => exact absurd h (by simp [set_points])
    | some v => exact (set_points_ok_spec h).2.2.2.2.2.2.1
  · intro e v e2 h
    obtain ⟨_, _, hb0, hb1, hb2, hb3, _, _⟩ := set_points_ok_spec h
    exact ⟨hb0, hb1, hb2, hb3⟩
  · intro e w
    rfl

/-- Witness for claim C6: resetting `E4` to the single point (5, 5). -/
theorem claim_C6_witness :
    E1pt.stop_prob = none ∧
    (E1pt.b0 = minQ ([((5 : ℚ), (5 : ℚ))].map Prod.fst) ∧
     E1pt.b1 = maxQ ([((5 : ℚ), (5 : ℚ))].map Prod.fst) ∧
     E1pt.b2 = minQ ([((5 : ℚ), (5 : ℚ))].map Prod.snd) ∧
     E1pt.b3 = maxQ ([((5 : ℚ), (5 : ℚ))].map Prod.snd)) ∧
    (set_weights E4 none).stop_prob = none :=
  ⟨claim_C6.1 E4 (some [(5, 5)]) E1pt rfl,
   claim_C6.2.1 E4 [(5, 5)] E1pt rfl,
   claim_C6.2.2 E4 none⟩

/-- Claim C7 (confirmed, with the error class realised as the builtin
ValueError of Python `min()` on an empty sequence, since the module
defines no custom exception class): with a nonempty route collection,
`route_dist` returns exactly one distance per point, each equal to the
minimum over the routes of that route's distance operation applied to
the point (hence nonnegative whenever the collaborator's distances
are); with an empty route collection and a nonempty PointSet, every
constructed Estimator having one, it raises. -/
theorem claim_C7 (e : Estimator) (routes : List ((ℚ × ℚ) → ℚ)) :
    (routes ≠ [] → ∃ l, route_dist e routes = Except.ok l ∧
      l.length = e.points.length ∧
      (∀ (k : ℕ) (hk : k < l.length) (hk2 : k < e.points.length),
        (∀ r ∈ routes, l.get ⟨k, hk⟩ ≤ r (e.points.get ⟨k, hk2⟩)) ∧
        (∃ r ∈ routes, l.get ⟨k, hk⟩ = r (e.points.get ⟨k, hk2⟩))) ∧
      ((∀ r ∈ routes, ∀ p, 0 ≤ r p) → ∀ d ∈ l, 0 ≤ d)) ∧
    (routes = [] → e.points ≠ [] →
      route_dist e routes = Except.error Err.valueError) := by
  constructor
  · intro hne
    unfold route_dist
    have hmapne : ∀ p : ℚ × ℚ, routes.map (fun r => r p) ≠ [] := by
      intro p hmap
      exact hne (List.map_eq_nil_iff.mp hmap)
    refine ⟨e.points.map (fun p => minQ (routes.map (fun r => r p))),
      route_dist_list_ok routes hne e.points, by simp, ?_, ?_⟩
    · intro k hk hk2
      have hget : (e.points.map
          (fun p => minQ (routes.map (fun r => r p)))).get ⟨k, hk⟩ =
          minQ (routes.map (fun r => r (e.points.get ⟨k, hk2⟩))) := by
        rw [List.get_eq_getElem, List.getElem_map, List.get_eq_getElem]
      constructor
      · intro r hr
        rw [hget]
        exact minQ_le (List.mem_map.mpr ⟨r, hr, rfl⟩)
      · have hmm := minQ_mem (hmapne (e.points.get ⟨k, hk2⟩))
        rcases List.mem_map.mp hmm with ⟨r, hr, heq⟩
        exact ⟨r, hr, by rw [hget]; exact heq.symm⟩
    · intro hnn d hd
      rcases List.mem_map.mp hd with ⟨p, hp, heq⟩
      subst heq
      have hmm := minQ_mem (hmapne p)
      rcases List.mem_map.mp hmm with ⟨r, hr, heq2⟩
      rw [← heq2]
      exact hnn r hr p
  · intro h0 hne
    subst h0
    unfold route_dist
    cases hp : e.points with
    | nil => exact absurd hp hne
    | cons p ps => rfl

/-- Witness for claim C7: the `E4` points against one route geometry,
and against the empty route collection. -/
theorem claim_C7_witness :
    (∃ l, route_dist E4 route71 = Except.ok l ∧
      l.length = E4.points.length ∧
      (∀ (k : ℕ) (hk : k < l.length) (hk2 : k < E4.points.length),
        (∀ r ∈ route71, l.get ⟨k, hk⟩ ≤ r (E4.points.get ⟨k, hk2⟩)) ∧
        (∃ r ∈ route71, l.get ⟨k, hk⟩ = r (E4.points.get ⟨k, hk2⟩))) ∧
      ((∀ r ∈ route71, ∀ p, 0 ≤ r p) → ∀ d ∈ l, 0 ≤ d)) ∧
    route_dist E4 [] = Except.error Err.valueError :=
  ⟨(claim_C7 E4 route71).1 (by simp [route71]),
   (claim_C7 E4 []).2 rfl (by decide)⟩

/-- Claim C8 (code bug): the spec requires a failed road-snap lookup to
be replaced by the sentinel and never to abort the batch. The sentinel
is the scalar `0` while successful lookups produce coordinate pairs, and
`np.apply_along_axis` shapes its output after the first result: if the
first lookup fails and a later one succeeds, the pair cannot be
broadcast into the scalar buffer and the call raises ValueError; if all
lookups fail, the flat sentinel vector makes the final zip raise
TypeError. Only a failure after a successful first lookup is recovered
with the (0, 0) sentinel. -/
theorem claim_C8 :
    (estimate_stops E4 lookupFailFirst true true 7 (1 / 10)).fst =
      Except.error Err.valueError ∧
    (estimate_stops E4 lookupFailSecond true true 7 (1 / 10)).fst =
      Except.ok [(2, 2), (0, 0)] ∧
    (estimate_stops E4 lookupNone true true 7 (1 / 10)).fst =
      Except.error Err.typeError := by
  refine ⟨?_, ?_, ?_⟩
  · rw [run4 lookupFailFirst true]
    rfl
  · rw [run4 lookupFailSecond true]
    rfl
  · rw [run4 lookupNone true]
    rfl

/-- Claim C9 (confirmed): for a PointSet with at least two points and
unit weights, every coordinate pair returned by a successful
`estimate_stops` call without snapping lies within the boundaries
derived from the PointSet: the x component within the x minima and
maxima, the y component within the y minima and maxima. -/
theorem claim_C9 (pts : List (ℚ × ℚ)) (e : Estimator) (res : ℕ) (kw : ℚ)
    (lookup : ℚ × ℚ → Option (ℚ × ℚ)) (l : List (ℚ × ℚ))
    (hN : 2 ≤ pts.length)
    (hinit : estimator_init (some pts) (some (List.replicate pts.length 1)) =
      Except.ok e)
    (hcall : (estimate_stops e lookup true false res kw).fst = Except.ok l) :
    ∀ q ∈ l,
      minQ (pts.map Prod.fst) ≤ q.2 ∧ q.2 ≤ maxQ (pts.map Prod.fst) ∧
      minQ (pts.map Prod.snd) ≤ q.1 ∧ q.1 ≤ maxQ (pts.map Prod.snd) := by
  obtain ⟨hc, hp, hb0, hb1, hb2, hb3, hsp, hw⟩ := estimator_init_ok_spec hinit
  have hxne : pts.map Prod.fst ≠ [] := by
    intro hmap
    have := List.map_eq_nil_iff.mp hmap
    rw [this] at hN
    simp at hN
  have hyne : pts.map Prod.snd ≠ [] := by
    intro hmap
    have := List.map_eq_nil_iff.mp hmap
    rw [this] at hN
    simp at hN
  have hk : gaussian_kde (KdeDataset.coords e.p_coordinates) e.weights kw =
      Except.ok (fun qx qy =>
        ((pts.zip (List.replicate pts.length 1)).map
          (fun pw => pw.2 * kdeKernel kw (qx - pw.1.1) (qy - pw.1.2))).sum) := by
    rw [hc, hw]
    simp only [gaussian_kde]
    rw [if_neg (by omega), if_neg (by simp),
        if_neg (by
          rw [List.sum_replicate, nsmul_eq_mul, mul_one]
          exact Nat.cast_ne_zero.mpr (by omega))]
  rw [estimate_stops_fit_shape e lookup true false res kw _ hsp
      (by simp only [if_true]; exact hk), extractOutput_no_snap] at hcall
  have hleq := Except.ok.inj hcall
  subst hleq
  intro q hq
  rcases List.mem_map.mp hq with ⟨c, hcmem, rfl⟩
  rw [mem_candCells] at hcmem
  obtain ⟨hi, hj, _, _⟩ := hcmem
  rw [evalGrid_length] at hi
  rw [evalGrid_row _ _ _ hi] at hj
  rw [List.length_map] at hj
  have hxmem : (linspace e.b0 e.b1 res).getD c.2 0 ∈ linspace e.b0 e.b1 res := by
    rw [List.getD_eq_getElem _ _ hj]
    exact List.getElem_mem _
  have hymem : (linspace e.b2 e.b3 res).getD c.1 0 ∈ linspace e.b2 e.b3 res := by
    rw [List.getD_eq_getElem _ _ hi]
    exact List.getElem_mem _
  have hxb := linspace_mem_bounds (by rw [hb0, hb1]; exact minQ_le_maxQ hxne) hxmem
  have hyb := linspace_mem_bounds (by rw [hb2, hb3]; exact minQ_le_maxQ hyne) hymem
  rw [← hb0, ← hb1, ← hb2, ← hb3]
  exact ⟨hxb.1, hxb.2, hyb.1, hyb.2⟩

/-- Witness for claim C9: the `E4` run returns (2, 2) and (4, 4), and
(2, 2) lies within the boundaries of `pts4`. -/
theorem claim_C9_witness :
    minQ (pts4.map Prod.fst) ≤ (2 : ℚ) ∧ (2 : ℚ) ≤ maxQ (pts4.map Prod.fst) ∧
    minQ (pts4.map Prod.snd) ≤ (2 : ℚ) ∧ (2 : ℚ) ≤ maxQ (pts4.map Prod.snd) :=
  claim_C9 pts4 E4 7 (1 / 10) lookupNone [(2, 2), (4, 4)] (by decide) rfl
    run4_fst_no_snap (2, 2) (by decide)

/-- Claim C10 (confirmed): constructing an Estimator with the default
`input_points` of `None` always raises from the points setter (the
attribute access on `None` fails), and any construction that finishes
has its PointSet, coordinate array and Boundaries populated from the
given points. -/
theorem claim_C10 :
    (∀ w, estimator_init none w = Except.error Err.attributeError) ∧
    (∀ pts w e, estimator_init (some pts) w = Except.ok e →
      e.points = pts ∧ e.p_coordinates = pts ∧
      e.b0 = minQ (pts.map Prod.fst) ∧ e.b1 = maxQ (pts.map Prod.fst) ∧
      e.b2 = minQ (pts.map Prod.snd) ∧ e.b3 = maxQ (pts.map Prod.snd)) := by
  constructor
  · intro w
    rfl
  · intro pts w e h
    obtain ⟨hc, hp, hb0, hb1, hb2, hb3, _, _⟩ := estimator_init_ok_spec h
    exact ⟨hp, hc, hb0, hb1, hb2, hb3⟩

/-- Witness for claim C10: point-less construction raises, and the `E4`
construction populates every derived field. -/
theorem claim_C10_witness :
    estimator_init none none = Except.error Err.attributeError ∧
    (E4.points = pts4 ∧ E4.p_coordinates = pts4 ∧
     E4.b0 = minQ (pts4.map Prod.fst) ∧ E4.b1 = maxQ (pts4.map Prod.fst) ∧
     E4.b2 = minQ (pts4.map Prod.snd) ∧ E4.b3 = maxQ (pts4.map Prod.snd)) :=
  ⟨claim_C10.1 none, claim_C10.2 pts4 (some [1, 1, 1, 1]) E4 rfl⟩

end DallaCrowd
